import Mathlib

/-!
Verification of the Los-keys key service (src/index.js) against its
natural-language specification.

The source is a single Node.js file backed by a `keys` table in PostgreSQL.
We embed it shallowly: the `keys` table is a `List KeyRow` (rows in insertion
order; the `key` column is UNIQUE so at most one row per identifier), SQL
timestamps are `Nat` milliseconds, and each HTTP / slash-command handler is a
Lean function translated statement by statement from the source.  Each
individual SQL statement is atomic (as in PostgreSQL with autocommit); the
concurrency model below interleaves handlers at statement boundaries.
-/

namespace LosKeys

/-- A row of the `keys` table (src/index.js, CREATE TABLE keys, lines 43-57).
`used` defaults to false and `user_roblox_name` / `user_roblox_id` / `used_at`
are nullable, hence `Option`. -/
structure KeyRow where
  key : String
  creator_id : String
  creator_name : String
  creator_username : String
  created_at : Nat
  expires_at : Nat
  duration : String
  used : Bool
  user_roblox_name : Option String
  user_roblox_id : Option String
  used_at : Option Nat
  notes : String
  deriving DecidableEq, Repr

/-- `SELECT * FROM keys WHERE key = $1` returning the single matching row,
if any (the `key` column is UNIQUE). -/
def findByKey (db : List KeyRow) (key : String) : Option KeyRow :=
  db.find? fun r => r.key == key

/-- The `data` object of a successful /api/verify response
(src/index.js lines 174-178). -/
structure VerifyData where
  createdBy : String
  duration : String
  createdAt : Nat
  deriving DecidableEq, Repr

/-- The JSON body sent by /api/verify: `valid`, `message`, optional `data`. -/
structure VerifyResponse where
  valid : Bool
  message : String
  data : Option VerifyData
  deriving DecidableEq, Repr

/-- The `UPDATE keys SET used = true, user_roblox_name = $1,
user_roblox_id = $2, used_at = NOW() WHERE key = $3` statement
(src/index.js lines 160-164). -/
def updateUsed (db : List KeyRow) (key robloxName robloxId : String)
    (now : Nat) : List KeyRow :=
  db.map fun r =>
    if r.key == key then
      { r with used := true, user_roblox_name := some robloxName,
               user_roblox_id := some robloxId, used_at := some now }
    else r

/-- The /api/verify handler from the point after its initial SELECT has
returned `keyData` (src/index.js lines 147-182): the used check, the expiry
check (`new Date(keyData.expires_at) < new Date()`), the unconditional
UPDATE, the audit-log INSERT, and the response.  `logOk = false` models the
`addLog` INSERT throwing: the handler's try/catch then answers
`valid: false` with the error's message, while the already-executed UPDATE
stays committed (each statement runs in its own autocommitted query). -/
def verifyAfterRead (db : List KeyRow) (keyData : Option KeyRow)
    (key robloxName robloxId : String) (now : Nat) (logOk : Bool) :
    VerifyResponse × List KeyRow :=
  match keyData with
  | none => (⟨false, "Key não encontrada", none⟩, db)
  | some keyData =>
    if keyData.used then (⟨false, "Key já foi utilizada", none⟩, db)
    else if keyData.expires_at < now then (⟨false, "Key expirada", none⟩, db)
    else
      let db2 := updateUsed db key robloxName robloxId now
      if logOk then
        (⟨true, "Key válida! Acesso liberado.",
          some ⟨keyData.creator_name, keyData.duration, keyData.created_at⟩⟩,
         db2)
      else (⟨false, "erro ao inserir no log", none⟩, db2)

/-- The whole /api/verify handler (src/index.js lines 130-183) run to
completion with no interleaved writer: input validation (JS falsiness of a
missing or empty string field), the SELECT, then `verifyAfterRead`. -/
def verifyRun (db : List KeyRow) (key robloxName robloxId : String)
    (now : Nat) (logOk : Bool) : VerifyResponse × List KeyRow :=
  if key = "" then (⟨false, "Key não fornecida", none⟩, db)
  else if robloxName = "" ∨ robloxId = "" then
    (⟨false, "Dados do Roblox não fornecidos", none⟩, db)
  else verifyAfterRead db (findByKey db key) key robloxName robloxId now logOk

/-- Progress of one in-flight /api/verify call: not yet started, SELECT done
(holding the row it read, possibly stale), or finished with a response. -/
inductive Phase where
  | start
  | afterRead (keyData : Option KeyRow)
  | finished (resp : VerifyResponse)
  deriving DecidableEq, Repr

/-- Two concurrent /api/verify calls for the same key sharing one database. -/
structure TwoClients where
  db : List KeyRow
  a : Phase
  b : Phase
  deriving DecidableEq, Repr

/-- One atomic database round trip of a verify call: from `start` it performs
the SELECT; from `afterRead` it performs the remaining checks and (when
eligible) the UPDATE, exactly as the source does after its `await dbGet`. -/
def stepPhase (db : List KeyRow) (p : Phase)
    (key robloxName robloxId : String) (now : Nat) : Phase × List KeyRow :=
  match p with
  | .start => (.afterRead (findByKey db key), db)
  | .afterRead kd =>
      let res := verifyAfterRead db kd key robloxName robloxId now true
      (.finished res.fst, res.snd)
  | .finished r => (.finished r, db)

/-- Scheduler step: `true` advances client `a`, `false` advances client `b`. -/
def stepSys (s : TwoClients) (who : Bool)
    (key robloxName robloxId : String) (now : Nat) : TwoClients :=
  if who then
    let pr := stepPhase s.db s.a key robloxName robloxId now
    { s with a := pr.fst, db := pr.snd }
  else
    let pr := stepPhase s.db s.b key robloxName robloxId now
    { s with b := pr.fst, db := pr.snd }

/-- Run a finite interleaving of the two clients. -/
def runSched (s : TwoClients) (sched : List Bool)
    (key robloxName robloxId : String) (now : Nat) : TwoClients :=
  sched.foldl (fun st w => stepSys st w key robloxName robloxId now) s

/-- Whether a client has finished with `valid: true` (a grant). -/
def grantedPhase : Phase → Bool
  | .finished r => r.valid
  | _ => false

/-- The `switch(duration)` table of the getkey handler (src/index.js lines
296-302): milliseconds offset and display text per duration class.  The
switch has no default, so an unrecognized class leaves both undefined
(`none`); the Discord choice list restricts inputs to these five. -/
def durationTable : String → Option (Nat × String)
  | "1h" => some (60 * 60 * 1000, "1 Hora")
  | "24h" => some (24 * 60 * 60 * 1000, "24 Horas")
  | "7d" => some (7 * 24 * 60 * 60 * 1000, "7 Dias")
  | "30d" => some (30 * 24 * 60 * 60 * 1000, "30 Dias")
  | "perm" => some (365 * 24 * 60 * 60 * 1000, "Permanente (1 Ano)")
  | _ => none

/-- Outcome of the getkey slash command: the embed with the new key, or the
generic catch-all error reply (src/index.js lines 434-437). -/
inductive IssueReply where
  | issued (row : KeyRow)
  | commandError
  deriving DecidableEq, Repr

/-- The getkey handler (src/index.js lines 290-340).  `gen` is the stream of
values `generateKey()` would return on successive calls; the handler calls it
exactly once (`gen 0`) and performs exactly one INSERT.  A UNIQUE violation
on `key` makes the INSERT throw, which the surrounding catch turns into the
generic error reply; there is no retry loop.  An unrecognized duration
leaves `durationMs` undefined and the INSERT of an invalid timestamp throws
likewise. -/
def getkeyHandler (db : List KeyRow) (gen : Nat → String)
    (uid uname uusername duration notes : String) (now : Nat) :
    IssueReply × List KeyRow :=
  match durationTable duration with
  | none => (.commandError, db)
  | some (durMs, durText) =>
    let key := gen 0
    let row : KeyRow :=
      ⟨key, uid, uname, uusername, now, now + durMs, durText,
       false, none, none, none, notes⟩
    if db.any (fun r => r.key == key) then (.commandError, db)
    else (.issued row, db ++ [row])

/-- Ordering used by `ORDER BY created_at DESC`. -/
def createdDesc (a b : KeyRow) : Prop :=
  b.created_at ≤ a.created_at

instance : DecidableRel createdDesc := fun a b =>
  inferInstanceAs (Decidable (b.created_at ≤ a.created_at))

instance : IsTotal KeyRow createdDesc :=
  ⟨fun a b => le_total b.created_at a.created_at⟩

instance : IsTrans KeyRow createdDesc :=
  ⟨fun _ _ _ h1 h2 => le_trans h2 h1⟩

/-- The minhaskeys query (src/index.js line 344): `SELECT * FROM keys WHERE
creator_id = $1 AND expires_at > NOW() ORDER BY created_at DESC`.  Note the
WHERE clause does not mention `used`. -/
def minhaskeysHandler (db : List KeyRow) (uid : String) (now : Nat) :
    List KeyRow :=
  List.insertionSort createdDesc
    (db.filter fun r => r.creator_id == uid && decide (now < r.expires_at))

/-- Replies of the revokekey slash command (src/index.js lines 372-389). -/
inductive RevokeReply where
  | notFound
  | notYours
  | revoked
  deriving DecidableEq, Repr

/-- The revokekey handler (src/index.js lines 372-389): SELECT the row,
reply not-found if absent, reply not-yours unless `creator_id` equals the
requester's id, otherwise `DELETE FROM keys WHERE key = $1`.  The handler
never reads the `used` column. -/
def revokekeyHandler (db : List KeyRow) (key uid : String) :
    RevokeReply × List KeyRow :=
  match findByKey db key with
  | none => (.notFound, db)
  | some keyData =>
    if keyData.creator_id ≠ uid then (.notYours, db)
    else (.revoked, db.filter fun r => !(r.key == key))

/-- The status string of the checkkey handler (src/index.js line 401):
`keyData.used ? Usada : expired ? Expirada : Válida`, where
`expired = new Date(keyData.expires_at) < new Date()`. -/
def checkkeyStatus (keyData : KeyRow) (now : Nat) : String :=
  if keyData.used then "❌ Usada"
  else if keyData.expires_at < now then "⏰ Expirada"
  else "✅ Válida"

/-- The expiry sweep (src/index.js lines 78-89): `DELETE FROM keys WHERE
expires_at < NOW() AND used = false`; the result keeps every row the DELETE
does not match. -/
def cleanupExpiredKeys (db : List KeyRow) (now : Nat) : List KeyRow :=
  db.filter fun r => !(decide (r.expires_at < now) && !r.used)

/-- The invariant of C8: a row's `used_at` is non-null iff `used` is true. -/
def UsedAtInv (db : List KeyRow) : Prop :=
  ∀ r ∈ db, (r.used_at ≠ none ↔ r.used = true)

end LosKeys
namespace LosKeys

/-- A freshly issued, unconsumed, unexpired key used as a concrete database
row in several theorems below. -/
def freshRow : KeyRow :=
  ⟨"AB12", "creator1", "Creator", "creator", 0, 1000, "1 Hora",
   false, none, none, none, ""⟩

/-- A consumed (used) key, still before its expiry timestamp. -/
def consumedRow : KeyRow :=
  ⟨"USED1", "owner1", "Owner", "owner", 0, 1000, "1 Hora",
   true, some "Rob", some "42", some 500, ""⟩

/-- An unconsumed key whose expiry timestamp is exactly 100. -/
def edgeRow : KeyRow :=
  ⟨"EDGE1", "u1", "U", "u", 0, 100, "1 Hora", false, none, none, none, ""⟩

/-- A row already occupying the identifier DUP1. -/
def dupRow : KeyRow :=
  ⟨"DUP1", "u1", "U", "u", 0, 1000, "1 Hora", false, none, none, none, ""⟩

/-- A generator stream whose first output collides with `dupRow` and whose
second output is fresh. -/
def dupGen : Nat → String := fun n => if n = 0 then "DUP1" else "FRESH1"

/-- C1: the claim says at most one of any number of concurrent verify calls
for a fixed key is granted.  The handler is SELECT-then-UPDATE, so in the
interleaving where both clients run their SELECT before either runs its
UPDATE, both calls finish with `valid = true` on one freshly issued key:
the code double-grants. -/
theorem C1_verify_race_double_grant :
    freshRow.used = false ∧
    grantedPhase (runSched ⟨[freshRow], .start, .start⟩
      [true, false, true, false] "AB12" "Rob" "42" 10).a = true ∧
    grantedPhase (runSched ⟨[freshRow], .start, .start⟩
      [true, false, true, false] "AB12" "Rob" "42" 10).b = true :=
  ⟨rfl, rfl, rfl⟩

/-- C2 counterexample: revoking a consumed key by its creator does not
return AlreadyConsumed; the handler deletes the row. -/
theorem C2_revoke_consumed_deletes_row :
    consumedRow.used = true ∧
    revokekeyHandler [consumedRow] "USED1" "owner1" = (RevokeReply.revoked, []) :=
  ⟨rfl, rfl⟩

/-- C2 amended: revoke checks only existence and ownership; whenever the key
exists and belongs to the requester it is deleted, with no regard to the
`used` flag. -/
theorem C2_revoke_checks_only_ownership (db : List KeyRow) (key uid : String)
    (r : KeyRow) (hfind : findByKey db key = some r)
    (hown : r.creator_id = uid) :
    revokekeyHandler db key uid =
      (RevokeReply.revoked, db.filter fun x => !(x.key == key)) := by
  unfold revokekeyHandler
  rw [hfind]
  simp [hown]

/-- Witness for C2_revoke_checks_only_ownership at a concrete database. -/
theorem C2_revoke_checks_only_ownership_witness :
    revokekeyHandler [consumedRow] "USED1" "owner1" =
      (RevokeReply.revoked, [consumedRow].filter fun x => !(x.key == "USED1")) :=
  C2_revoke_checks_only_ownership [consumedRow] "USED1" "owner1" consumedRow rfl rfl

/-- C3 counterexample: a consumed (but unexpired) key still appears in the
minhaskeys listing, so the listing is not restricted to unconsumed keys. -/
theorem C3_listmine_includes_consumed :
    consumedRow.used = true ∧
    minhaskeysHandler [consumedRow] "owner1" 100 = [consumedRow] :=
  ⟨rfl, rfl⟩

/-- C3 amended: minhaskeys returns exactly the requester's unexpired keys,
consumed or not, ordered by creation time descending. -/
theorem C3_listmine_unexpired_only_sorted (db : List KeyRow) (uid : String)
    (now : Nat) :
    (∀ r : KeyRow, r ∈ minhaskeysHandler db uid now ↔
      (r ∈ db ∧ r.creator_id = uid ∧ now < r.expires_at)) ∧
    List.Sorted createdDesc (minhaskeysHandler db uid now) := by
  constructor
  · intro r
    unfold minhaskeysHandler
    rw [List.mem_insertionSort, List.mem_filter]
    simp [and_assoc]
  · exact List.sorted_insertionSort createdDesc _

/-- C4 counterexample: a verify call at the exact expiry instant
(`expires_at = now`) is granted, because the code's expiry test is the
strict comparison `expires_at < now`. -/
theorem C4_verify_grants_at_exact_expiry :
    edgeRow.expires_at = 100 ∧ edgeRow.used = false ∧
    (verifyRun [edgeRow] "EDGE1" "Rob" "42" 100 true).fst.valid = true :=
  ⟨rfl, rfl, rfl⟩

/-- C4 amended: a single verify call (with the audit log succeeding) grants
iff the key exists, is unconsumed, and `now ≤ expires_at`; on every
non-granted outcome the database is unchanged and the message names the
precise reason; on grant the response carries creator, duration and
creation-time metadata. -/
theorem C4_verify_characterization (db : List KeyRow) (key rn rid : String)
    (now : Nat) (hk : key ≠ "") (hrn : rn ≠ "") (hrid : rid ≠ "") :
    ((verifyRun db key rn rid now true).fst.valid = true ↔
      ∃ r, findByKey db key = some r ∧ r.used = false ∧ now ≤ r.expires_at) ∧
    ((verifyRun db key rn rid now true).fst.valid = false →
      (verifyRun db key rn rid now true).snd = db) ∧
    (findByKey db key = none →
      (verifyRun db key rn rid now true).fst.message = "Key não encontrada") ∧
    (∀ r, findByKey db key = some r → r.used = true →
      (verifyRun db key rn rid now true).fst.message = "Key já foi utilizada") ∧
    (∀ r, findByKey db key = some r → r.used = false → r.expires_at < now →
      (verifyRun db key rn rid now true).fst.message = "Key expirada") ∧
    (∀ r, findByKey db key = some r → r.used = false → now ≤ r.expires_at →
      (verifyRun db key rn rid now true).fst.data =
        some ⟨r.creator_name, r.duration, r.created_at⟩) := by
  have hval : verifyRun db key rn rid now true =
      verifyAfterRead db (findByKey db key) key rn rid now true := by
    unfold verifyRun
    rw [if_neg hk, if_neg (by simp [hrn, hrid])]
  rw [hval]
  cases hfind : findByKey db key with
  | none => simp [verifyAfterRead]
  | some r =>
    by_cases hu : r.used
    · simp [verifyAfterRead, hu]
    · by_cases he : r.expires_at < now
      · simp [verifyAfterRead, hu, he, Nat.not_le.mpr he]
      · simp [verifyAfterRead, hu, he, Nat.not_lt.mp he]

/-- Witness for C4_verify_characterization: an in-date unconsumed key is
granted. -/
theorem C4_verify_characterization_witness :
    (verifyRun [edgeRow] "EDGE1" "Rob" "42" 50 true).fst.valid = true :=
  ((C4_verify_characterization [edgeRow] "EDGE1" "Rob" "42" 50
    (by decide) (by decide) (by decide)).1).mpr ⟨edgeRow, rfl, rfl, by decide⟩

end LosKeys
namespace LosKeys

/-- C5 counterexample: when the audit-log INSERT fails after a successful
consumption UPDATE, the caller is answered `valid = false` — not
granted — while the row is already marked used in the database. -/
theorem C5_logfail_denies_caller :
    (verifyRun [edgeRow] "EDGE1" "Rob" "42" 50 false).fst.valid = false ∧
    ((verifyRun [edgeRow] "EDGE1" "Rob" "42" 50 false).snd.find?
      fun r => r.key == "EDGE1").map KeyRow.used = some true :=
  ⟨rfl, rfl⟩

/-- C5 amended: a log failure after an eligible consumption never rolls the
UPDATE back — the database is exactly the updated one — but the operation's
result to the caller becomes `valid = false`. -/
theorem C5_logfail_no_rollback (db : List KeyRow) (key rn rid : String)
    (now : Nat) (r : KeyRow) (hk : key ≠ "") (hrn : rn ≠ "") (hrid : rid ≠ "")
    (hfind : findByKey db key = some r) (hused : r.used = false)
    (hexp : now ≤ r.expires_at) :
    (verifyRun db key rn rid now false).snd = updateUsed db key rn rid now ∧
    (verifyRun db key rn rid now false).fst.valid = false := by
  unfold verifyRun
  rw [if_neg hk, if_neg (by simp [hrn, hrid]), hfind]
  simp [verifyAfterRead, hused, Nat.not_lt.mpr hexp]

/-- Witness for C5_logfail_no_rollback at a concrete database. -/
theorem C5_logfail_no_rollback_witness :
    (verifyRun [edgeRow] "EDGE1" "Rob" "42" 50 false).snd =
      updateUsed [edgeRow] "EDGE1" "Rob" "42" 50 ∧
    (verifyRun [edgeRow] "EDGE1" "Rob" "42" 50 false).fst.valid = false :=
  C5_logfail_no_rollback [edgeRow] "EDGE1" "Rob" "42" 50 edgeRow
    (by decide) (by decide) (by decide) rfl rfl (by decide)

/-- C6 counterexample: when the first generated identifier collides, the
getkey handler answers the generic command error with the database
unchanged, even though the generator's next output is fresh: there is no
retry. -/
theorem C6_issue_fails_on_first_collision :
    getkeyHandler [dupRow] dupGen "u1" "U" "u" "1h" "" 5 =
      (IssueReply.commandError, [dupRow]) ∧
    [dupRow].any (fun r => r.key == dupGen 1) = false :=
  ⟨rfl, rfl⟩

/-- C6 amended: issuance makes exactly one insert attempt; any identifier
collision fails the command immediately and leaves the database unchanged. -/
theorem C6_issue_single_attempt (db : List KeyRow) (gen : Nat → String)
    (uid uname uusername duration notes : String) (now ms : Nat)
    (text : String) (hdur : durationTable duration = some (ms, text))
    (hdup : db.any (fun r => r.key == gen 0) = true) :
    getkeyHandler db gen uid uname uusername duration notes now =
      (IssueReply.commandError, db) := by
  unfold getkeyHandler
  rw [hdur]
  simp [hdup]

/-- Witness for C6_issue_single_attempt at a concrete collision. -/
theorem C6_issue_single_attempt_witness :
    getkeyHandler [dupRow] dupGen "u1" "U" "u" "1h" "" 5 =
      (IssueReply.commandError, [dupRow]) :=
  C6_issue_single_attempt [dupRow] dupGen "u1" "U" "u" "1h" "" 5
    3600000 "1 Hora" rfl rfl

/-- C7: the sweep keeps a row iff it is in the database and is not both
past-expiry and unconsumed — so exactly the expired-and-unconsumed rows are
deleted, consumed rows are retained regardless of expiry, and the survivors
form a sublist (no other row is touched). -/
theorem C7_cleanup_exact (db : List KeyRow) (now : Nat) :
    (∀ r : KeyRow, r ∈ cleanupExpiredKeys db now ↔
      (r ∈ db ∧ ¬(r.expires_at < now ∧ r.used = false))) ∧
    (cleanupExpiredKeys db now).Sublist db := by
  constructor
  · intro r
    unfold cleanupExpiredKeys
    simp only [List.mem_filter]
    exact and_congr_right fun _ => by
      cases hu : r.used <;> by_cases h1 : r.expires_at < now <;> simp [h1, hu]
  · exact List.filter_sublist _

/-- The consumption UPDATE preserves the used_at-iff-used invariant: the row
it rewrites gets `used = true` and `used_at = some now` together. -/
theorem updateUsed_inv (db : List KeyRow) (key rn rid : String) (now : Nat)
    (hinv : UsedAtInv db) : UsedAtInv (updateUsed db key rn rid now) := by
  intro r hr
  unfold updateUsed at hr
  obtain ⟨x, hx, rfl⟩ := List.mem_map.1 hr
  by_cases hk : x.key == key
  · simp [hk]
  · simpa [hk] using hinv x hx

/-- C8: every handler preserves the invariant that `used_at` is non-null iff
`used` is true, and a successful issuance creates its row with `used = false`
and `used_at = null`. -/
theorem C8_usedAt_iff_used_invariant (db : List KeyRow) (hinv : UsedAtInv db)
    (gen : Nat → String)
    (uid uname uusername duration notes key rn rid ruid : String)
    (now : Nat) (logOk : Bool) :
    UsedAtInv (getkeyHandler db gen uid uname uusername duration notes now).snd ∧
    UsedAtInv (verifyRun db key rn rid now logOk).snd ∧
    UsedAtInv (revokekeyHandler db key ruid).snd ∧
    UsedAtInv (cleanupExpiredKeys db now) ∧
    (∀ row db2,
      getkeyHandler db gen uid uname uusername duration notes now =
        (IssueReply.issued row, db2) →
      row.used = false ∧ row.used_at = none) := by
  refine ⟨?_, ?_, ?_, ?_, ?_⟩
  · unfold getkeyHandler
    cases durationTable duration with
    | none => exact hinv
    | some p =>
      by_cases hdup : db.any (fun r => r.key == gen 0)
      · simpa [hdup] using hinv
      · simp only [hdup, Bool.false_eq_true, if_false]
        intro r hr
        rcases List.mem_append.1 hr with h | h
        · exact hinv r h
        · rcases List.mem_singleton.1 h with rfl
          simp
  · unfold verifyRun
    by_cases hk : key = ""
    · simpa [hk] using hinv
    · by_cases hd : rn = "" ∨ rid = ""
      · simpa [hk, hd] using hinv
      · simp only [hk, hd, if_false]
        unfold verifyAfterRead
        cases findByKey db key with
        | none => exact hinv
        | some kd =>
          by_cases hu : kd.used
          · simpa [hu] using hinv
          · by_cases he : kd.expires_at < now
            · simpa [hu, he] using hinv
            · cases logOk <;>
                simpa [hu, he] using updateUsed_inv db key rn rid now hinv
  · unfold revokekeyHandler
    cases findByKey db key with
    | none => exact hinv
    | some kd =>
      by_cases hown : kd.creator_id ≠ ruid
      · simpa [hown] using hinv
      · simp only [hown, if_false]
        intro r hr
        exact hinv r (List.mem_filter.1 hr).1
  · intro r hr
    exact hinv r (List.mem_filter.1 hr).1
  · intro row db2 heq
    unfold getkeyHandler at heq
    cases hdt : durationTable duration with
    | none => rw [hdt] at heq; simp at heq
    | some p =>
      rw [hdt] at heq
      by_cases hdup : db.any (fun r => r.key == gen 0)
      · simp [hdup] at heq
      · simp [hdup] at heq
        obtain ⟨h1, -⟩ := heq
        subst h1
        exact ⟨rfl, rfl⟩

/-- Witness for C8_usedAt_iff_used_invariant: the sweep preserves the
invariant on a concrete one-row database. -/
theorem C8_usedAt_iff_used_invariant_witness :
    UsedAtInv (cleanupExpiredKeys [edgeRow] 5) :=
  (C8_usedAt_iff_used_invariant [edgeRow]
    (by intro r hr; rw [List.mem_singleton] at hr; subst hr; decide)
    (fun _ => "K1") "u" "U" "uu" "1h" "" "EDGE1" "Rob" "42" "u1" 5 true).2.2.2.1

/-- C9: the duration table maps 1h, 24h, 7d, 30d to their fixed millisecond
offsets and the permanent class to a finite 365-day offset, and every
successful issuance stamps `expires_at = now + offset`, a concrete finite
timestamp. -/
theorem C9_duration_offsets (db : List KeyRow) (gen : Nat → String)
    (uid uname uusername notes : String) (now : Nat)
    (hfresh : db.any (fun r => r.key == gen 0) = false) :
    durationTable "1h" = some (3600000, "1 Hora") ∧
    durationTable "24h" = some (86400000, "24 Horas") ∧
    durationTable "7d" = some (604800000, "7 Dias") ∧
    durationTable "30d" = some (2592000000, "30 Dias") ∧
    durationTable "perm" = some (31536000000, "Permanente (1 Ano)") ∧
    (∀ duration ms text, durationTable duration = some (ms, text) →
      (getkeyHandler db gen uid uname uusername duration notes now).fst =
        IssueReply.issued
          ⟨gen 0, uid, uname, uusername, now, now + ms, text,
           false, none, none, none, notes⟩) := by
  refine ⟨rfl, rfl, rfl, rfl, rfl, ?_⟩
  intro duration ms text hdt
  unfold getkeyHandler
  rw [hdt]
  simp [hfresh]

/-- Witness for C9_duration_offsets on an empty database. -/
theorem C9_duration_offsets_witness :
    durationTable "perm" = some (31536000000, "Permanente (1 Ano)") :=
  (C9_duration_offsets [] (fun _ => "K1") "u" "U" "uu" "" 0 rfl).2.2.2.2.1

/-- C10: for a key that is both consumed and past expiry, the used check
fires first: verify answers already-used (not expired) and the checkkey
status string is Usada (not Expirada). -/
theorem C10_used_priority_over_expired (db : List KeyRow) (key rn rid : String)
    (now : Nat) (r : KeyRow) (hk : key ≠ "") (hrn : rn ≠ "") (hrid : rid ≠ "")
    (hfind : findByKey db key = some r) (hused : r.used = true)
    (_hexp : r.expires_at < now) :
    (verifyRun db key rn rid now true).fst =
      ⟨false, "Key já foi utilizada", none⟩ ∧
    checkkeyStatus r now = "❌ Usada" := by
  constructor
  · unfold verifyRun
    rw [if_neg hk, if_neg (by simp [hrn, hrid]), hfind]
    simp [verifyAfterRead, hused]
  · unfold checkkeyStatus
    rw [if_pos hused]

/-- Witness for C10_used_priority_over_expired: a consumed key checked well
past its expiry. -/
theorem C10_used_priority_over_expired_witness :
    (verifyRun [consumedRow] "USED1" "Rob" "42" 2000 true).fst =
      ⟨false, "Key já foi utilizada", none⟩ ∧
    checkkeyStatus consumedRow 2000 = "❌ Usada" :=
  C10_used_priority_over_expired [consumedRow] "USED1" "Rob" "42" 2000
    consumedRow (by decide) (by decide) (by decide) rfl rfl (by decide)

end LosKeys
